import Mathlib

/-!
Shallow embedding of parts of the firebase-js-sdk repository:
the storage `list` operation (packages/storage, Reference module),
the firestore path validators (packages/firestore input_validation.ts),
and the multi-factor-authentication user orchestrator exercised by
packages-exp/auth-exp mfa_user.test.ts, modelled from the design spec
since the orchestrator source itself is not among the provided files.
-/

namespace Firebase

/-! ## Storage: list (from the Reference module source) -/

namespace Storage

/-- Error kinds raised by the storage code in scope. -/
inductive StorageError where
  | invalidArgument (message : String)
  deriving DecidableEq, Repr

/-- ListOptions as in src: optional maxResults and pageToken. `maxResults`
is a JS number used only in integer comparisons, embedded as Int. -/
structure ListOptions where
  maxResults : Option Int := none
  pageToken : Option String := none
  deriving DecidableEq, Repr

/-- Effects the `list` pipeline performs after validation, in order. -/
inductive ListEffect where
  | getAuthToken
  | makeRequest
  deriving DecidableEq, Repr

def MAX_MAX_RESULTS : Int := 1000

/-- Embedding of `list(ref, options)`: first the maxResults validation
(throwing invalidArgument), then the auth-token read and the network
request. The result records the effects performed and the error, if any;
on a thrown validation error no effect has been performed. -/
def list (options : Option ListOptions) : List ListEffect × Option StorageError :=
  match options with
  | some o =>
    match o.maxResults with
    | some m =>
      if m ≤ 0 then
        ([], some (.invalidArgument "Expected options.maxResults to be a positive number."))
      else if m > MAX_MAX_RESULTS then
        ([], some (.invalidArgument "Expected options.maxResults to be less than or equal to 1000."))
      else
        ([.getAuthToken, .makeRequest], none)
    | none => ([.getAuthToken, .makeRequest], none)
  | none => ([.getAuthToken, .makeRequest], none)

end Storage

/-! ## Firestore: path validators (from input_validation.ts) -/

namespace Firestore

/-- Firestore error codes in scope. -/
inductive Code where
  | invalidArgument
  deriving DecidableEq, Repr

structure FirestoreError where
  code : Code
  message : String
  deriving DecidableEq, Repr

/-- A resource path is its list of segments; `length` is the segment count. -/
structure ResourcePath where
  segments : List String
  deriving DecidableEq, Repr

def ResourcePath.length (p : ResourcePath) : Nat := p.segments.length

/-- Modelled from the spec: `DocumentKey.isDocumentKey` lives in
model/document_key.ts, which is not among the provided sources; per the
doc comments of validateDocumentPath and validateCollectionPath, a path
is a document key exactly when it has an even number of segments. -/
def DocumentKey.isDocumentKey (p : ResourcePath) : Bool :=
  p.length % 2 == 0

/-- Canonical string of a path, used only inside error messages. -/
def ResourcePath.canonicalString (p : ResourcePath) : String :=
  String.intercalate "/" p.segments

/-- Embedding of validateDocumentPath: throws FirestoreError with code
INVALID_ARGUMENT when the path is not a document key. -/
def validateDocumentPath (path : ResourcePath) : Except FirestoreError Unit :=
  if ¬ DocumentKey.isDocumentKey path then
    .error ⟨.invalidArgument,
      "Invalid document reference. Document references must have an even number of segments, but "
        ++ path.canonicalString ++ " has " ++ toString path.length ++ "."⟩
  else
    .ok ()

/-- Embedding of validateCollectionPath: throws FirestoreError with code
INVALID_ARGUMENT when the path is a document key. -/
def validateCollectionPath (path : ResourcePath) : Except FirestoreError Unit :=
  if DocumentKey.isDocumentKey path then
    .error ⟨.invalidArgument,
      "Invalid collection reference. Collection references must have an odd number of segments, but "
        ++ path.canonicalString ++ " has " ++ toString path.length ++ "."⟩
  else
    .ok ()

end Firestore

/-! ## Auth MFA: MultiFactorUser orchestrator

Modelled from the spec: the orchestrator source (mfa_user.ts, mfa_session.ts,
assertions/phone.ts) is not among the provided files; only its test is.
The definitions below follow the design document, sections 4.1 to 4.3 and
6 to 7, with the backend exchanges passed in as explicit response values
and the issued requests recorded in a trace. -/

namespace Auth

/-- Auth errors in scope: the missing-token validation error, the
token-expired server error swallowed by reconciliation, and any other
structured backend error code, surfaced verbatim. -/
inductive AuthError where
  | userTokenMissing
  | tokenExpired
  | serverError (code : String)
  deriving DecidableEq, Repr

/-- Modelled from the spec: EnrolledFactorInfo, an immutable record from a
server response; identity is by uid. -/
structure MultiFactorInfo where
  uid : String
  displayName : Option String := none
  enrollmentTime : Nat := 0
  phoneInfo : String := ""
  deriving DecidableEq, Repr

/-- Modelled from the spec: the User collaborator, reduced to the
attributes in scope: current ID token (none when no valid token is
cached), refresh token, and optional tenant identifier. -/
structure User where
  idToken : Option String
  refreshToken : String
  tenantId : Option String := none
  deriving DecidableEq, Repr

/-- Modelled from the spec: the orchestrator holds a user and the locally
cached ordered list of enrolled factors. -/
structure MultiFactorUser where
  user : User
  enrolledFactors : List MultiFactorInfo
  deriving DecidableEq, Repr

inductive MultiFactorSessionType where
  | enroll
  | signin
  deriving DecidableEq, Repr

/-- Modelled from the spec: a session wraps one opaque credential string
plus a purpose tag. -/
structure MultiFactorSession where
  type : MultiFactorSessionType
  credential : String
  deriving DecidableEq, Repr

/-- Modelled from the spec, 4.1: for ENROLL purpose, getSession
synchronously wraps the current ID token as the credential with no
network call, and fails with AuthError(UserTokenMissing) when the user
has no valid cached token. -/
def getSession (u : User) : Except AuthError MultiFactorSession :=
  match u.idToken with
  | some t => .ok ⟨.enroll, t⟩
  | none => .error .userTokenMissing

/-- Modelled from the spec: a phone assertion holds a verification id
(the session info issued by the start-enrollment exchange) and the
one-time verification code. -/
structure PhoneMultiFactorAssertion where
  verificationId : String
  verificationCode : String
  deriving DecidableEq, Repr

/-- Request payload field of the finalize-enrollment body, section 6. -/
structure PhoneVerificationInfo where
  code : String
  sessionInfo : String
  deriving DecidableEq, Repr

/-- Finalize-phone-MFA-enrollment request body, section 6. -/
structure FinalizeMfaEnrollmentRequest where
  idToken : String
  tenantId : Option String
  phoneVerificationInfo : PhoneVerificationInfo
  deriving DecidableEq, Repr

/-- Withdraw-MFA request body, section 6. -/
structure WithdrawMfaRequest where
  idToken : String
  mfaEnrollmentId : String
  tenantId : Option String
  deriving DecidableEq, Repr

/-- Response of both mutation endpoints: fresh tokens, section 6. -/
structure FinalizeMfaResponse where
  idToken : String
  refreshToken : String
  deriving DecidableEq, Repr

/-- One backend request issued by the orchestrator, recorded in order. -/
inductive Request where
  | finalizeEnrollment (r : FinalizeMfaEnrollmentRequest)
  | withdrawMfa (r : WithdrawMfaRequest)
  | getAccountInfo (idToken : String)
  deriving DecidableEq, Repr

/-- Outcome of a mutation call: the requests issued in order, the
orchestrator state after the call, and the surfaced error when the call
rejects (none when it resolves). -/
structure OpResult where
  requests : List Request
  mfaUser : MultiFactorUser
  outcome : Option AuthError
  deriving DecidableEq, Repr

/-- Modelled from the spec, 4.2: enroll obtains an ENROLL session, builds
the finalize request bundling the session credential, the tenant id and
the phone payload, submits it, and on success unconditionally replaces
the user tokens with the response tokens, then runs a best-effort
account-info refresh that rebuilds enrolledFactors; a refresh failure is
swallowed and leaves the cached list stale. Backend exchanges are passed
in as the response values finalizeResp and reloadResp. -/
def enroll (m : MultiFactorUser) (a : PhoneMultiFactorAssertion)
    (finalizeResp : Except AuthError FinalizeMfaResponse)
    (reloadResp : Except AuthError (List MultiFactorInfo)) : OpResult :=
  match getSession m.user with
  | .error e => ⟨[], m, some e⟩
  | .ok session =>
    let req : FinalizeMfaEnrollmentRequest :=
      ⟨session.credential, m.user.tenantId, ⟨a.verificationCode, a.verificationId⟩⟩
    match finalizeResp with
    | .error e => ⟨[.finalizeEnrollment req], m, some e⟩
    | .ok resp =>
      let user1 : User := ⟨some resp.idToken, resp.refreshToken, m.user.tenantId⟩
      let m1 : MultiFactorUser := ⟨user1, m.enrolledFactors⟩
      let trace : List Request := [.finalizeEnrollment req, .getAccountInfo resp.idToken]
      match reloadResp with
      | .ok factors => ⟨trace, ⟨user1, factors⟩, none⟩
      | .error _ => ⟨trace, m1, none⟩

/-- Modelled from the spec, 4.3 and 9: unenroll accepts either an
EnrolledFactorInfo or a raw uid, normalized to one uid at the boundary. -/
def resolveUid (infoOrUid : MultiFactorInfo ⊕ String) : String :=
  match infoOrUid with
  | .inl info => info.uid
  | .inr uid => uid

/-- Modelled from the spec, 4.3: unenroll builds the withdrawal request
from the current ID token, the resolved uid and the tenant id, submits
it, and on success replaces the user tokens with the response tokens and
removes from enrolledFactors every entry whose uid equals the withdrawn
uid by a stable filter; the following best-effort account-info refresh
only reconciles other account state, and a refresh failure caused by
token invalidation is swallowed while the call still resolves. -/
def unenroll (m : MultiFactorUser) (infoOrUid : MultiFactorInfo ⊕ String)
    (withdrawResp : Except AuthError FinalizeMfaResponse)
    (reloadResp : Except AuthError (List MultiFactorInfo)) : OpResult :=
  let mfaEnrollmentId := resolveUid infoOrUid
  match m.user.idToken with
  | none => ⟨[], m, some .userTokenMissing⟩
  | some t =>
    let req : WithdrawMfaRequest := ⟨t, mfaEnrollmentId, m.user.tenantId⟩
    match withdrawResp with
    | .error e => ⟨[.withdrawMfa req], m, some e⟩
    | .ok resp =>
      let user1 : User := ⟨some resp.idToken, resp.refreshToken, m.user.tenantId⟩
      let factors1 := m.enrolledFactors.filter (fun f => f.uid ≠ mfaEnrollmentId)
      let m1 : MultiFactorUser := ⟨user1, factors1⟩
      let trace : List Request := [.withdrawMfa req, .getAccountInfo resp.idToken]
      match reloadResp with
      | .ok _ => ⟨trace, m1, none⟩
      | .error .tokenExpired => ⟨trace, m1, none⟩
      | .error e => ⟨trace, m1, some e⟩

/-- The finalize-enrollment request bodies contained in a trace. -/
def finalizeRequests (l : List Request) : List FinalizeMfaEnrollmentRequest :=
  l.filterMap fun r =>
    match r with
    | .finalizeEnrollment b => some b
    | _ => none

/-- The withdraw-MFA request bodies contained in a trace. -/
def withdrawRequests (l : List Request) : List WithdrawMfaRequest :=
  l.filterMap fun r =>
    match r with
    | .withdrawMfa b => some b
    | _ => none

end Auth

end Firebase

namespace Firebase.Storage

/-- C9: list(ref, options) raises an invalidArgument error exactly when
options and options.maxResults are present and maxResults is nonpositive
or exceeds MAX_MAX_RESULTS = 1000; the rejection happens before the
auth-token read and the network request, and otherwise both effects run
with no maxResults validation error. -/
theorem list_maxResults_validated (options : Option ListOptions) :
    ((∃ o m, options = some o ∧ o.maxResults = some m ∧ (m ≤ 0 ∨ m > MAX_MAX_RESULTS)) ↔
      (∃ msg, (list options).2 = some (.invalidArgument msg))) ∧
    ((list options).2 ≠ none → (list options).1 = []) ∧
    ((list options).2 = none → (list options).1 = [.getAuthToken, .makeRequest]) := by
  rcases options with _ | o
  · simp [list]
  · rcases ho : o.maxResults with _ | m
    · simp [list, ho]
    · by_cases h1 : m ≤ 0
      · simp [list, ho, h1]
      · by_cases h2 : m > MAX_MAX_RESULTS
        · simp [list, ho, h1, h2]
        · simp [list, ho, h1, h2]

/-- Witness for C9: with maxResults 0 the call rejects before the
auth-token read, so the effect trace is empty. -/
theorem list_maxResults_validated_witness :
    (list (some ⟨some 0, none⟩)).1 = [] :=
  (list_maxResults_validated (some ⟨some 0, none⟩)).2.1 (by decide)

end Firebase.Storage

namespace Firebase.Firestore

/-- C10: validateDocumentPath throws a FirestoreError with code
INVALID_ARGUMENT exactly when the segment count is odd, and
validateCollectionPath throws the same code exactly when the segment
count is even, so on every path exactly one of the two validators
throws. -/
theorem validate_paths_partition (p : ResourcePath) :
    ((∃ e, validateDocumentPath p = .error e ∧ e.code = .invalidArgument) ↔
      p.length % 2 = 1) ∧
    ((∃ e, validateCollectionPath p = .error e ∧ e.code = .invalidArgument) ↔
      p.length % 2 = 0) ∧
    ((∃ e, validateDocumentPath p = .error e) ↔ ¬ ∃ e, validateCollectionPath p = .error e) := by
  rcases Nat.mod_two_eq_zero_or_one p.length with h | h <;>
    simp [validateDocumentPath, validateCollectionPath, DocumentKey.isDocumentKey, h]

/-- Witness for C10: on the two-segment path users/doc the collection
validator throws an INVALID_ARGUMENT error. -/
theorem validate_paths_partition_witness :
    ∃ e, validateCollectionPath ⟨["users", "doc"]⟩ = .error e ∧
      e.code = .invalidArgument :=
  (validate_paths_partition ⟨["users", "doc"]⟩).2.1.mpr (by decide)

end Firebase.Firestore

namespace Firebase.Auth

/-- C6: for a user holding a cached valid ID token t, getSession returns
a session of ENROLL purpose whose credential is t; for a user with no
valid cached token it fails with AuthError userTokenMissing. -/
theorem getSession_enroll_spec (u : User) :
    (∀ t, u.idToken = some t → getSession u = .ok ⟨.enroll, t⟩) ∧
    (u.idToken = none → getSession u = .error .userTokenMissing) := by
  constructor
  · intro t h; simp [getSession, h]
  · intro h; simp [getSession, h]

/-- Witness for C6 at a concrete user with token access-token. -/
theorem getSession_enroll_spec_witness :
    getSession ⟨some "access-token", "refresh-token", none⟩ =
      .ok ⟨.enroll, "access-token"⟩ :=
  (getSession_enroll_spec ⟨some "access-token", "refresh-token", none⟩).1 "access-token" rfl

/-- C1: for any phone assertion, when the user holds ID token t, enroll
issues exactly one finalize-enrollment request, whose body bundles t,
the tenant id, and the phone payload with code the verification code and
sessionInfo the verification id. -/
theorem enroll_issues_one_finalize_request (m : MultiFactorUser)
    (a : PhoneMultiFactorAssertion) (t : String) (h : m.user.idToken = some t)
    (finalizeResp : Except AuthError FinalizeMfaResponse)
    (reloadResp : Except AuthError (List MultiFactorInfo)) :
    finalizeRequests (enroll m a finalizeResp reloadResp).requests =
      [⟨t, m.user.tenantId, ⟨a.verificationCode, a.verificationId⟩⟩] := by
  rcases finalizeResp with e | resp <;> rcases reloadResp with e2 | factors <;>
    simp [enroll, getSession, h, finalizeRequests]

/-- Witness for C1 at the concrete values of the test: code
verification-code, sessionInfo verification-id, idToken access-token. -/
theorem enroll_issues_one_finalize_request_witness :
    finalizeRequests (enroll
        ⟨⟨some "access-token", "refresh", some "tenant-id"⟩, []⟩
        ⟨"verification-id", "verification-code"⟩
        (.ok ⟨"final-id-token", "refresh-token"⟩) (.ok [])).requests =
      [⟨"access-token", some "tenant-id", ⟨"verification-code", "verification-id"⟩⟩] :=
  enroll_issues_one_finalize_request
    ⟨⟨some "access-token", "refresh", some "tenant-id"⟩, []⟩
    ⟨"verification-id", "verification-code"⟩ "access-token" rfl
    (.ok ⟨"final-id-token", "refresh-token"⟩) (.ok [])

/-- C2: a successful enroll or unenroll with response tokens i, r leaves
the user holding exactly idToken i and refreshToken r; when i differs
from the pre-call token the cached token is never the pre-call token. -/
theorem tokens_replaced_on_success (m : MultiFactorUser) (t : String)
    (h : m.user.idToken = some t) (a : PhoneMultiFactorAssertion)
    (infoOrUid : MultiFactorInfo ⊕ String) (resp : FinalizeMfaResponse)
    (reloadResp : Except AuthError (List MultiFactorInfo)) :
    ((enroll m a (.ok resp) reloadResp).mfaUser.user.idToken = some resp.idToken ∧
     (enroll m a (.ok resp) reloadResp).mfaUser.user.refreshToken = resp.refreshToken ∧
     (enroll m a (.ok resp) reloadResp).outcome = none) ∧
    ((unenroll m infoOrUid (.ok resp) reloadResp).mfaUser.user.idToken = some resp.idToken ∧
     (unenroll m infoOrUid (.ok resp) reloadResp).mfaUser.user.refreshToken = resp.refreshToken) ∧
    (some resp.idToken ≠ m.user.idToken →
      (enroll m a (.ok resp) reloadResp).mfaUser.user.idToken ≠ m.user.idToken ∧
      (unenroll m infoOrUid (.ok resp) reloadResp).mfaUser.user.idToken ≠ m.user.idToken) := by
  rcases reloadResp with e | factors
  · cases e <;> simp [enroll, unenroll, getSession, h]
  · simp [enroll, unenroll, getSession, h]

/-- Witness for C2 at the concrete values of the test: final-id-token
replaces access-token after both operations. -/
theorem tokens_replaced_on_success_witness :
    ((enroll ⟨⟨some "access-token", "r", none⟩, []⟩ ⟨"vid", "code"⟩
        (.ok ⟨"final-id-token", "refresh-token"⟩) (.ok [])).mfaUser.user.idToken =
          some "final-id-token" ∧
     (enroll ⟨⟨some "access-token", "r", none⟩, []⟩ ⟨"vid", "code"⟩
        (.ok ⟨"final-id-token", "refresh-token"⟩) (.ok [])).mfaUser.user.refreshToken =
          "refresh-token" ∧
     (enroll ⟨⟨some "access-token", "r", none⟩, []⟩ ⟨"vid", "code"⟩
        (.ok ⟨"final-id-token", "refresh-token"⟩) (.ok [])).outcome = none) ∧
    ((unenroll ⟨⟨some "access-token", "r", none⟩, []⟩ (.inr "mfa-id")
        (.ok ⟨"final-id-token", "refresh-token"⟩) (.ok [])).mfaUser.user.idToken =
          some "final-id-token" ∧
     (unenroll ⟨⟨some "access-token", "r", none⟩, []⟩ (.inr "mfa-id")
        (.ok ⟨"final-id-token", "refresh-token"⟩) (.ok [])).mfaUser.user.refreshToken =
          "refresh-token") ∧
    (some "final-id-token" ≠ (⟨⟨some "access-token", "r", none⟩, []⟩ : MultiFactorUser).user.idToken →
      (enroll ⟨⟨some "access-token", "r", none⟩, []⟩ ⟨"vid", "code"⟩
        (.ok ⟨"final-id-token", "refresh-token"⟩) (.ok [])).mfaUser.user.idToken ≠
          (⟨⟨some "access-token", "r", none⟩, []⟩ : MultiFactorUser).user.idToken ∧
      (unenroll ⟨⟨some "access-token", "r", none⟩, []⟩ (.inr "mfa-id")
        (.ok ⟨"final-id-token", "refresh-token"⟩) (.ok [])).mfaUser.user.idToken ≠
          (⟨⟨some "access-token", "r", none⟩, []⟩ : MultiFactorUser).user.idToken) :=
  tokens_replaced_on_success ⟨⟨some "access-token", "r", none⟩, []⟩ "access-token" rfl
    ⟨"vid", "code"⟩ (.inr "mfa-id") ⟨"final-id-token", "refresh-token"⟩ (.ok [])

/-- C3: a successful unenroll leaves enrolledFactors equal to the stable
filter of the previous list that removes exactly the entries whose uid is
the withdrawn uid, so relative order of the rest is preserved. -/
theorem unenroll_filters_enrolledFactors (m : MultiFactorUser) (t : String)
    (h : m.user.idToken = some t) (infoOrUid : MultiFactorInfo ⊕ String)
    (resp : FinalizeMfaResponse)
    (reloadResp : Except AuthError (List MultiFactorInfo)) :
    (unenroll m infoOrUid (.ok resp) reloadResp).mfaUser.enrolledFactors =
      m.enrolledFactors.filter (fun f => f.uid ≠ resolveUid infoOrUid) := by
  rcases reloadResp with e | factors
  · cases e <;> simp [unenroll, h]
  · simp [unenroll, h]

/-- Witness for C3 at the concrete example of the claim: from the list
with uids mfa-id and other-mfa-id, unenrolling the first factor leaves
exactly the entry with uid other-mfa-id. -/
theorem unenroll_filters_enrolledFactors_witness :
    (unenroll ⟨⟨some "access-token", "r", none⟩,
        [⟨"mfa-id", none, 0, "phone-info"⟩, ⟨"other-mfa-id", none, 0, "other-phone-info"⟩]⟩
      (.inl ⟨"mfa-id", none, 0, "phone-info"⟩)
      (.ok ⟨"final-id-token", "refresh-token"⟩) (.ok [])).mfaUser.enrolledFactors =
      [⟨"other-mfa-id", none, 0, "other-phone-info"⟩] :=
  (unenroll_filters_enrolledFactors
    ⟨⟨some "access-token", "r", none⟩,
        [⟨"mfa-id", none, 0, "phone-info"⟩, ⟨"other-mfa-id", none, 0, "other-phone-info"⟩]⟩
    "access-token" rfl (.inl ⟨"mfa-id", none, 0, "phone-info"⟩)
    ⟨"final-id-token", "refresh-token"⟩ (.ok [])).trans (by decide)

/-- C4: unenrolling a factor info and unenrolling its raw uid issue
identical request traces, and when the user holds token t the single
withdrawal request issued is exactly idToken t, mfaEnrollmentId the uid,
tenantId the tenant. -/
theorem unenroll_overloads_equivalent (m : MultiFactorUser) (f : MultiFactorInfo)
    (t : String) (h : m.user.idToken = some t)
    (withdrawResp : Except AuthError FinalizeMfaResponse)
    (reloadResp : Except AuthError (List MultiFactorInfo)) :
    (unenroll m (.inl f) withdrawResp reloadResp).requests =
      (unenroll m (.inr f.uid) withdrawResp reloadResp).requests ∧
    withdrawRequests (unenroll m (.inl f) withdrawResp reloadResp).requests =
      [⟨t, f.uid, m.user.tenantId⟩] := by
  rcases withdrawResp with e | resp
  · simp [unenroll, h, withdrawRequests, resolveUid]
  · rcases reloadResp with e2 | factors
    · cases e2 <;> simp [unenroll, h, withdrawRequests, resolveUid]
    · simp [unenroll, h, withdrawRequests, resolveUid]

/-- Witness for C4 at the concrete values of the test. -/
theorem unenroll_overloads_equivalent_witness :
    (unenroll ⟨⟨some "access-token", "r", none⟩, []⟩
        (.inl ⟨"mfa-id", none, 0, "phone-info"⟩)
        (.ok ⟨"final-id-token", "refresh-token"⟩) (.ok [])).requests =
      (unenroll ⟨⟨some "access-token", "r", none⟩, []⟩
        (.inr (MultiFactorInfo.uid ⟨"mfa-id", none, 0, "phone-info"⟩))
        (.ok ⟨"final-id-token", "refresh-token"⟩) (.ok [])).requests ∧
    withdrawRequests (unenroll ⟨⟨some "access-token", "r", none⟩, []⟩
        (.inl ⟨"mfa-id", none, 0, "phone-info"⟩)
        (.ok ⟨"final-id-token", "refresh-token"⟩) (.ok [])).requests =
      [⟨"access-token", MultiFactorInfo.uid ⟨"mfa-id", none, 0, "phone-info"⟩, none⟩] :=
  unenroll_overloads_equivalent ⟨⟨some "access-token", "r", none⟩, []⟩
    ⟨"mfa-id", none, 0, "phone-info"⟩ "access-token" rfl
    (.ok ⟨"final-id-token", "refresh-token"⟩) (.ok [])

/-- C5: when the withdrawal succeeds and the following best-effort
account-info refresh fails with a token-expired error, unenroll still
resolves: the refresh failure is swallowed. -/
theorem unenroll_swallows_token_expired (m : MultiFactorUser) (t : String)
    (h : m.user.idToken = some t) (infoOrUid : MultiFactorInfo ⊕ String)
    (resp : FinalizeMfaResponse) :
    (unenroll m infoOrUid (.ok resp) (.error .tokenExpired)).outcome = none := by
  simp [unenroll, h]

/-- Witness for C5 at the concrete values of the test. -/
theorem unenroll_swallows_token_expired_witness :
    (unenroll ⟨⟨some "access-token", "r", none⟩, []⟩ (.inr "mfa-id")
      (.ok ⟨"final-id-token", "refresh-token"⟩) (.error .tokenExpired)).outcome = none :=
  unenroll_swallows_token_expired ⟨⟨some "access-token", "r", none⟩, []⟩
    "access-token" rfl (.inr "mfa-id") ⟨"final-id-token", "refresh-token"⟩

/-- C7: a backend rejection of the mutation leaves the orchestrator state
unchanged and the call rejected, and the missing-token validation error
aborts both operations before any mutation, with state unchanged. -/
theorem mutation_errors_leave_state_unchanged (m : MultiFactorUser)
    (a : PhoneMultiFactorAssertion) (infoOrUid : MultiFactorInfo ⊕ String)
    (e : AuthError)
    (finalizeResp withdrawResp : Except AuthError FinalizeMfaResponse)
    (reloadResp : Except AuthError (List MultiFactorInfo)) :
    ((enroll m a (.error e) reloadResp).mfaUser = m ∧
      (enroll m a (.error e) reloadResp).outcome.isSome = true) ∧
    ((unenroll m infoOrUid (.error e) reloadResp).mfaUser = m ∧
      (unenroll m infoOrUid (.error e) reloadResp).outcome.isSome = true) ∧
    (m.user.idToken = none →
      (enroll m a finalizeResp reloadResp).mfaUser = m ∧
      (enroll m a finalizeResp reloadResp).outcome = some .userTokenMissing ∧
      (unenroll m infoOrUid withdrawResp reloadResp).mfaUser = m ∧
      (unenroll m infoOrUid withdrawResp reloadResp).outcome = some .userTokenMissing) := by
  rcases hm : m.user.idToken with _ | t <;>
    simp [enroll, unenroll, getSession, hm]

/-- Witness for C7: a backend rejection at concrete inputs, and the
missing-token case at a concrete user without a cached token. -/
theorem mutation_errors_leave_state_unchanged_witness :
    (((enroll ⟨⟨none, "r", none⟩, []⟩ ⟨"vid", "code"⟩
        (.error (.serverError "CODE_EXPIRED")) (.ok [])).mfaUser = ⟨⟨none, "r", none⟩, []⟩ ∧
      (enroll ⟨⟨none, "r", none⟩, []⟩ ⟨"vid", "code"⟩
        (.error (.serverError "CODE_EXPIRED")) (.ok [])).outcome.isSome = true) ∧
    ((unenroll ⟨⟨none, "r", none⟩, []⟩ (.inr "mfa-id")
        (.error (.serverError "CODE_EXPIRED")) (.ok [])).mfaUser = ⟨⟨none, "r", none⟩, []⟩ ∧
      (unenroll ⟨⟨none, "r", none⟩, []⟩ (.inr "mfa-id")
        (.error (.serverError "CODE_EXPIRED")) (.ok [])).outcome.isSome = true) ∧
    ((⟨⟨none, "r", none⟩, []⟩ : MultiFactorUser).user.idToken = none →
      (enroll ⟨⟨none, "r", none⟩, []⟩ ⟨"vid", "code"⟩
        (.ok ⟨"i", "rt"⟩) (.ok [])).mfaUser = ⟨⟨none, "r", none⟩, []⟩ ∧
      (enroll ⟨⟨none, "r", none⟩, []⟩ ⟨"vid", "code"⟩
        (.ok ⟨"i", "rt"⟩) (.ok [])).outcome = some .userTokenMissing ∧
      (unenroll ⟨⟨none, "r", none⟩, []⟩ (.inr "mfa-id")
        (.ok ⟨"i", "rt"⟩) (.ok [])).mfaUser = ⟨⟨none, "r", none⟩, []⟩ ∧
      (unenroll ⟨⟨none, "r", none⟩, []⟩ (.inr "mfa-id")
        (.ok ⟨"i", "rt"⟩) (.ok [])).outcome = some .userTokenMissing)) :=
  mutation_errors_leave_state_unchanged ⟨⟨none, "r", none⟩, []⟩ ⟨"vid", "code"⟩
    (.inr "mfa-id") (.serverError "CODE_EXPIRED") (.ok ⟨"i", "rt"⟩) (.ok ⟨"i", "rt"⟩) (.ok [])

/-- C8: unenrolling a uid absent from the local cache leaves the cached
list unchanged (the filter is a no-op) while the withdrawal request for
that uid is still issued. -/
theorem unenroll_stale_uid_noop_filter (m : MultiFactorUser) (t u : String)
    (h : m.user.idToken = some t)
    (hu : ∀ f ∈ m.enrolledFactors, f.uid ≠ u)
    (resp : FinalizeMfaResponse)
    (reloadResp : Except AuthError (List MultiFactorInfo)) :
    (unenroll m (.inr u) (.ok resp) reloadResp).mfaUser.enrolledFactors =
      m.enrolledFactors ∧
    withdrawRequests (unenroll m (.inr u) (.ok resp) reloadResp).requests =
      [⟨t, u, m.user.tenantId⟩] := by
  have hfilter : m.enrolledFactors.filter (fun f => !decide (f.uid = u)) = m.enrolledFactors :=
    List.filter_eq_self.mpr (fun f hf => by simpa using hu f hf)
  rcases reloadResp with e | factors
  · cases e <;> simp [unenroll, h, withdrawRequests, resolveUid, hfilter]
  · simp [unenroll, h, withdrawRequests, resolveUid, hfilter]

/-- Witness for C8: unenrolling the absent uid stale-id from a cache
holding only other-mfa-id. -/
theorem unenroll_stale_uid_noop_filter_witness :
    (unenroll ⟨⟨some "access-token", "r", none⟩, [⟨"other-mfa-id", none, 0, "p"⟩]⟩
        (.inr "stale-id") (.ok ⟨"final-id-token", "refresh-token"⟩)
        (.ok [])).mfaUser.enrolledFactors = [⟨"other-mfa-id", none, 0, "p"⟩] ∧
    withdrawRequests (unenroll ⟨⟨some "access-token", "r", none⟩,
        [⟨"other-mfa-id", none, 0, "p"⟩]⟩
        (.inr "stale-id") (.ok ⟨"final-id-token", "refresh-token"⟩)
        (.ok [])).requests = [⟨"access-token", "stale-id", none⟩] :=
  unenroll_stale_uid_noop_filter
    ⟨⟨some "access-token", "r", none⟩, [⟨"other-mfa-id", none, 0, "p"⟩]⟩
    "access-token" "stale-id" rfl
    (by intro f hf; simp at hf; subst hf; decide)
    ⟨"final-id-token", "refresh-token"⟩ (.ok [])

end Firebase.Auth
